import Mathlib

/-!
Shallow embedding of the EDGE-OS edge agent, covering the resilient HTTP
client (src/src/atlas_edge/client.py), the asset registry and command loop
(src/src/atlas_edge/registry.py, edge_stub.py), the bounded pipeline queues
(camera_detection_system/src/components/camera_manager.py, person_detector.py,
coordinate_processor.py, edge_agent.py) and the coordinate calculator
(camera_detection_system/src/components/coordinate_calculator.py).
Python floats are modelled by the real numbers; exceptions by sum types.
-/

namespace EdgeOS

/-! ### Resilient client: data types (client.py) -/

/-- One simulated result of issuing an HTTP request through httpx:
either a response with a status code and a parsed payload, or a
transport-level failure (httpx.TimeoutException / ConnectError /
NetworkError in client.py line 162). -/
inductive HttpResp (α : Type) where
  | http (status : Nat) (payload : α)
  | netFail
deriving DecidableEq

/-- The APIError classification of client.py: RateLimitError (429),
RetryableError (5xx and network failures), PermanentError (other non-2xx).
The status code carried by the exception is kept. netError models a
RetryableError built from a transport failure, whose status_code is None. -/
inductive ClientErr where
  | rateLimit (status : Nat)
  | retryable (status : Nat)
  | permanent (status : Nat)
  | netError
deriving DecidableEq

/-- Result of AtlasClient._execute_with_retry: a successful payload, a raised
APIError, or the artificial end of the supplied response script (which models
the final APIError raised when the loop yields nothing usable; its
status_code is None, like netError). -/
inductive Outcome (α : Type) where
  | success (payload : α)
  | raised (e : ClientErr)
  | outOfResponses
deriving DecidableEq

/-- A backoff sleep performed by _execute_with_retry before retrying:
rateLimitWait records the fixed rate-limit wait taken at a given attempt
(client.py line 142), backoffWait the exponential wait (lines 152 and 166). -/
inductive Delay where
  | rateLimitWait (attempt : Nat)
  | backoffWait (attempt : Nat)
deriving DecidableEq

/-- Aggregate result of one _execute_with_retry call: the outcome, the number
of HTTP requests actually issued, and the sleeps performed between attempts. -/
structure RunResult (α : Type) where
  outcome : Outcome α
  requests : Nat
  delays : List Delay
deriving DecidableEq

/-- httpx Response.is_success: status code in the 2xx range. -/
def isSuccess (s : Nat) : Bool :=
  decide (200 ≤ s ∧ s < 300)

/-- AtlasClient._classify_error (client.py lines 75-99): 429 maps to
RateLimitError, 500-599 to RetryableError, every other non-2xx status to
PermanentError. -/
def classify_error (s : Nat) : ClientErr :=
  if s = 429 then .rateLimit s
  else if 500 ≤ s ∧ s < 600 then .retryable s
  else .permanent s

/-- The retry loop of AtlasClient._execute_with_retry (client.py lines
125-174), driven by a script of responses consumed one per attempt.
attempt counts from 0 to maxRetries as in the Python for-range; a permanent
error or a success stops immediately, rate-limit and retryable errors retry
while attempt < maxRetries and otherwise raise, and a transport failure is
retried the same way, surfacing a status-less RetryableError at the end. -/
def retryLoop (maxRetries : Nat) : Nat → List (HttpResp α) → RunResult α
  | _, [] => ⟨.outOfResponses, 0, []⟩
  | attempt, r :: rest =>
    match r with
    | .netFail =>
      if attempt < maxRetries then
        let res := retryLoop maxRetries (attempt + 1) rest
        ⟨res.outcome, res.requests + 1, .backoffWait attempt :: res.delays⟩
      else ⟨.raised .netError, 1, []⟩
    | .http s p =>
      if isSuccess s then ⟨.success p, 1, []⟩
      else
        match classify_error s with
        | .permanent s2 => ⟨.raised (.permanent s2), 1, []⟩
        | .rateLimit s2 =>
          if attempt < maxRetries then
            let res := retryLoop maxRetries (attempt + 1) rest
            ⟨res.outcome, res.requests + 1, .rateLimitWait attempt :: res.delays⟩
          else ⟨.raised (.rateLimit s2), 1, []⟩
        | .retryable s2 =>
          if attempt < maxRetries then
            let res := retryLoop maxRetries (attempt + 1) rest
            ⟨res.outcome, res.requests + 1, .backoffWait attempt :: res.delays⟩
          else ⟨.raised (.retryable s2), 1, []⟩
        | .netError => ⟨.raised .netError, 1, []⟩

/-- AtlasClient._execute_with_retry started at attempt 0. -/
def executeWithRetry (maxRetries : Nat) (resps : List (HttpResp α)) : RunResult α :=
  retryLoop maxRetries 0 resps

/-- A response that _classify_error turns into a RetryableError: a 5xx
status, or a transport failure. -/
def serverErrorResp : HttpResp α → Bool
  | .http s _ => decide (500 ≤ s ∧ s < 600)
  | .netFail => true

/-- The RetryableError that _execute_with_retry raises when its final
attempt receives this response. -/
def raisedErrOf : HttpResp α → ClientErr
  | .http s _ => .retryable s
  | .netFail => .netError

/-- The retry-relevant fields of EdgeConfig (config.py lines 85-93):
MAX_RETRIES (default 3) and BACKOFF_BASE (default 2.0). -/
structure EdgeConfig where
  max_retries : Nat
  backoff_base : ℝ

/-- The seconds slept for one recorded Delay, given the configuration and the
jitter values drawn by random.uniform at each attempt: a rate-limit wait is
the fixed 5.0 seconds plus jitter (client.py line 142), a backoff wait is
backoff_base ** attempt plus jitter (lines 152 and 166). -/
noncomputable def delaySeconds (cfg : EdgeConfig) (jit : Nat → ℝ) : Delay → ℝ
  | .rateLimitWait a => 5 + jit a
  | .backoffWait a => cfg.backoff_base ^ a + jit a

/-! ### Bounded pipeline queues (camera_manager.py, person_detector.py,
coordinate_processor.py, edge_agent.py) -/

/-- queue.Queue.put_nowait followed by the stages' except-Full handler that
skips the new item: the queue is full exactly when its maxsize is positive
and reached, and then the incoming element is discarded unchanged (drop
newest). Models person_detector.py lines 134-141 (detection output queue)
and coordinate_processor.py lines 131-138 (coordinate output queue). -/
def put_nowait (maxsize : Nat) (q : List α) (x : α) : List α :=
  if 0 < maxsize ∧ maxsize ≤ q.length then q else q ++ [x]

/-- The Detection stage's push into its bounded output queue
(person_detector.py lines 134-141). -/
def detection_queue_push (maxsize : Nat) (q : List α) (x : α) : List α :=
  put_nowait maxsize q x

/-- The Geo-Referencing stage's push into its bounded output queue
(coordinate_processor.py lines 131-138). -/
def coordinate_queue_push (maxsize : Nat) (q : List α) (x : α) : List α :=
  put_nowait maxsize q x

/-- The eviction loop of CameraManager.run (camera_manager.py lines 157-161):
while the queue size is at least max_queue_size, pop the oldest entry;
popping an empty queue raises Empty and breaks the loop. -/
def evict_oldest (cap : Nat) : List α → List α
  | [] => []
  | x :: xs => if cap ≤ (x :: xs).length then evict_oldest cap xs else x :: xs

/-- One frame push of CameraManager.run (camera_manager.py lines 154-169):
evict oldest queued frames while the size reaches the manager's
max_queue_size cap, then put_nowait into the underlying queue.Queue of
capacity maxsize; a Full exception skips the frame. edge_agent.py wires
maxsize from config.frame_queue_size while leaving cap at its default. -/
def frame_queue_push (maxsize cap : Nat) (q : List α) (x : α) : List α :=
  put_nowait maxsize (evict_oldest cap q) x

/-- Pushing a whole sequence of frames through frame_queue_push in order. -/
def frame_queue_push_all (maxsize cap : Nat) (q : List α) (xs : List α) : List α :=
  xs.foldl (frame_queue_push maxsize cap) q

/-! ### Asset registry and command loop (registry.py, edge_stub.py) -/

/-- A command from the ATLAS command queue (registry.py lines 30-37).
Timestamps are modelled as integers on a common clock; parameters as an
association list standing for the JSON parameter mapping. -/
structure Command where
  index : Int
  command_type : String
  parameters : List (String × String)
  issued_at : Int
  expires_at : Option Int
deriving DecidableEq

/-- Command.is_expired (registry.py lines 63-71): a command with no
expires_at never expires; otherwise it is expired when the current time is
strictly past expires_at. -/
def is_expired (now : Int) (c : Command) : Bool :=
  match c.expires_at with
  | none => false
  | some t => decide (t < now)

/-- The mutable state of AssetRegistry: the _registered flag set in
__init__ (registry.py line 86). -/
structure RegistryState where
  registered : Bool
deriving DecidableEq

/-- The status_code carried by a raised APIError (None for errors built from
transport failures or from the final catch-all APIError). -/
def errStatus : ClientErr → Option Nat
  | .rateLimit s => some s
  | .retryable s => some s
  | .permanent s => some s
  | .netError => none

/-- AssetRegistry.register_asset (registry.py lines 88-130) driven through
the retry client by a script of responses: a successful POST sets
_registered and returns True; a raised APIError with status 409 is treated
the same way; every other raised error (and the degenerate end-of-script
APIError) is caught and returns False without touching the state. -/
def register_asset (st : RegistryState) (maxRetries : Nat)
    (resps : List (HttpResp α)) : RegistryState × Bool :=
  match (executeWithRetry maxRetries resps).outcome with
  | .success _ => (⟨true⟩, true)
  | .raised e => if errStatus e = some 409 then (⟨true⟩, true) else (st, false)
  | .outOfResponses => (st, false)

/-- The per-command body of the poll loop (registry.py lines 146-160):
commands are visited in order, an expired command is acknowledged
immediately (its index appended to the acknowledgment list) and skipped,
and a non-expired command is appended to the pending list. -/
def process_polled_commands (now : Int) : List Command → List Command × List Int
  | [] => ([], [])
  | c :: rest =>
    let (pending, acked) := process_polled_commands now rest
    if is_expired now c then (pending, c.index :: acked)
    else (c :: pending, acked)

/-- AssetRegistry.poll_commands (registry.py lines 132-176): polling while
unregistered returns an empty list without a request; a successful GET
filters the parsed commands through the expiry check; a raised APIError
with status 404 clears _registered; any other error returns an empty list
with the state unchanged. The returned list is the pending-command list
handed to the caller. -/
def poll_commands (st : RegistryState) (now : Int) (maxRetries : Nat)
    (resps : List (HttpResp (List Command))) : RegistryState × List Command :=
  if st.registered = false then (st, [])
  else
    match (executeWithRetry maxRetries resps).outcome with
    | .success cmds => (st, (process_polled_commands now cmds).1)
    | .raised e => if errStatus e = some 404 then (⟨false⟩, []) else (st, [])
    | .outOfResponses => (st, [])

/-- AssetRegistry.acknowledge_command (registry.py lines 178-205): a no-op
returning False while unregistered; a successful DELETE returns True; a
raised APIError with status 404 is treated as success since the command is
gone; every other error returns False. The state is never modified. -/
def acknowledge_command (st : RegistryState) (maxRetries : Nat)
    (resps : List (HttpResp α)) : RegistryState × Bool :=
  if st.registered = false then (st, false)
  else
    match (executeWithRetry maxRetries resps).outcome with
    | .success _ => (st, true)
    | .raised e => if errStatus e = some 404 then (st, true) else (st, false)
    | .outOfResponses => (st, false)

/-- The command types recognized by AssetRegistry.execute_command
(registry.py lines 220-241): ping, restart, update_config and collect_logs
succeed; anything else is an execution failure. -/
def knownCommandType (t : String) : Bool :=
  t = "ping" || t = "restart" || t = "update_config" || t = "collect_logs"

/-- AssetRegistry.execute_command (registry.py lines 207-254): a recognized
command type succeeds, is acknowledged through the client (ackResps scripts
that DELETE), and True is returned regardless of the acknowledgment result;
an unrecognized type returns False without acknowledging. The registry
state is whatever acknowledge_command leaves. -/
def execute_command (st : RegistryState) (c : Command) (maxRetries : Nat)
    (ackResps : List (HttpResp α)) : RegistryState × Bool :=
  if knownCommandType c.command_type then
    ((acknowledge_command st maxRetries ackResps).1, true)
  else (st, false)

/-! ### Coordinate calculator (coordinate_calculator.py, models/telemetry.py,
models/config.py) -/

/-- The camera parameters used by CoordinateCalculator (models/config.py
lines 14-24): frame resolution in integer pixels and the two fields of view
in degrees. -/
structure CameraConfig where
  width : Int
  height : Int
  horizontal_fov : ℝ
  vertical_fov : ℝ

/-- A pixel bounding box (models/telemetry.py lines 15-20): integer origin
and extent. -/
structure BoundingBox where
  x : Int
  y : Int
  width : Int
  height : Int
deriving DecidableEq

/-- Spatial coordinates (models/telemetry.py lines 31-36): bearing and
elevation in degrees and an optional distance, None when not computed. -/
structure SpatialCoordinates where
  bearing : ℝ
  elevation : ℝ
  distance : Option ℝ := none

/-- A person detection (models/telemetry.py lines 46-53). The confidence is
a real in place of the Python float; spatial coordinates and track id are
optional and default to None. -/
structure Detection where
  object_id : String
  object_type : String
  confidence : ℝ
  bounding_box : BoundingBox
  spatial_coordinates : Option SpatialCoordinates := none
  track_id : Option String := none

/-- math.radians: degrees to radians. -/
noncomputable def radians (d : ℝ) : ℝ := d * Real.pi / 180

/-- math.degrees: radians to degrees. -/
noncomputable def degrees (r : ℝ) : ℝ := r * 180 / Real.pi

/-- math.atan2 on the reals: the angle of the point (x, y), pi-shifted out
of the principal arctan branch when x is negative. Both call sites in the
calculator use a positive second argument, where this is arctan (y / x). -/
noncomputable def atan2 (y x : ℝ) : ℝ :=
  if 0 < x then Real.arctan (y / x)
  else if x < 0 ∧ 0 ≤ y then Real.arctan (y / x) + Real.pi
  else if x < 0 ∧ y < 0 then Real.arctan (y / x) - Real.pi
  else if x = 0 ∧ 0 < y then Real.pi / 2
  else if x = 0 ∧ y < 0 then -(Real.pi / 2)
  else 0

/-- CoordinateCalculator._calculate_constants (coordinate_calculator.py line
49): horizontal focal length in pixels, width / (2 tan(h_fov / 2)). -/
noncomputable def focal_length_x (c : CameraConfig) : ℝ :=
  (c.width : ℝ) / (2 * Real.tan (radians (c.horizontal_fov / 2)))

/-- CoordinateCalculator._calculate_constants (coordinate_calculator.py line
50): vertical focal length in pixels, height / (2 tan(v_fov / 2)). -/
noncomputable def focal_length_y (c : CameraConfig) : ℝ :=
  (c.height : ℝ) / (2 * Real.tan (radians (c.vertical_fov / 2)))

/-- CoordinateCalculator._validate_bounding_box (coordinate_calculator.py
lines 150-172): rejects non-positive extent, negative origin, and a box
extending past the frame bounds, in that order. -/
def _validate_bounding_box (c : CameraConfig) (b : BoundingBox) : Bool :=
  if b.width ≤ 0 ∨ b.height ≤ 0 then false
  else if b.x < 0 ∨ b.y < 0 then false
  else if b.x + b.width > c.width then false
  else if b.y + b.height > c.height then false
  else true

/-- CoordinateCalculator._trigonometric_projection (coordinate_calculator.py
lines 97-124): normalized device coordinates of the pixel, a 3D ray with
unit z, bearing atan2(ray_x, ray_z) and elevation
atan2(ray_y, sqrt(ray_x^2 + ray_z^2)), both in degrees. -/
noncomputable def _trigonometric_projection (c : CameraConfig) (px py : ℝ) : ℝ × ℝ :=
  let ndc_x := (2 * px - (c.width : ℝ)) / (c.width : ℝ)
  let ndc_y := ((c.height : ℝ) - 2 * py) / (c.height : ℝ)
  let ray_x := ndc_x * (c.width : ℝ) / (2 * focal_length_x c)
  let ray_y := ndc_y * (c.height : ℝ) / (2 * focal_length_y c)
  let ray_z : ℝ := 1
  (degrees (atan2 ray_x ray_z),
   degrees (atan2 ray_y (Real.sqrt (ray_x ^ 2 + ray_z ^ 2))))

/-- The primary algorithm exactly as the spec words it: focal length
dimension / (2 tan(FOV/2)) per axis, the point mapped to normalized device
coordinates in [-1, 1], a ray (rayX, rayY, 1) with
rayX = ndcX (width/2) / fX and rayY = ndcY (height/2) / fY, bearing
atan2(rayX, 1) and elevation atan2(rayY, sqrt(rayX^2 + 1)) in degrees. -/
noncomputable def spec_trigonometric_projection (c : CameraConfig) (px py : ℝ) : ℝ × ℝ :=
  let fX := (c.width : ℝ) / (2 * Real.tan (radians (c.horizontal_fov / 2)))
  let fY := (c.height : ℝ) / (2 * Real.tan (radians (c.vertical_fov / 2)))
  let ndcX := (2 * px - (c.width : ℝ)) / (c.width : ℝ)
  let ndcY := ((c.height : ℝ) - 2 * py) / (c.height : ℝ)
  let rayX := ndcX * ((c.width : ℝ) / 2) / fX
  let rayY := ndcY * ((c.height : ℝ) / 2) / fY
  (degrees (atan2 rayX 1),
   degrees (atan2 rayY (Real.sqrt (rayX ^ 2 + 1))))

/-- CoordinateCalculator._linear_mapping (coordinate_calculator.py lines
126-148): normalize the pixel to [-1, 1] per axis and scale by half the
field of view. -/
noncomputable def _linear_mapping (c : CameraConfig) (px py : ℝ) : ℝ × ℝ :=
  let norm_x := (px - (c.width : ℝ) / 2) / ((c.width : ℝ) / 2)
  let norm_y := ((c.height : ℝ) / 2 - py) / ((c.height : ℝ) / 2)
  (norm_x * (c.horizontal_fov / 2), norm_y * (c.vertical_fov / 2))

/-- CoordinateCalculator.calculate_coordinates (coordinate_calculator.py
lines 62-95) with the projection and fallback as parameters: an invalid box
raises ValueError before any projection; otherwise the center of the box is
projected by the primary method, and the fallback is used only when the
primary raises (a primary returning none models a raised exception). -/
noncomputable def calculate_coordinates_with (c : CameraConfig)
    (proj : ℝ → ℝ → Option (ℝ × ℝ)) (fallback : ℝ → ℝ → ℝ × ℝ)
    (b : BoundingBox) : Except String SpatialCoordinates :=
  if _validate_bounding_box c b = false then .error "Invalid bounding box"
  else
    let center_x : ℝ := (b.x : ℝ) + (b.width : ℝ) / 2
    let center_y : ℝ := (b.y : ℝ) + (b.height : ℝ) / 2
    match proj center_x center_y with
    | some r => .ok ⟨r.1, r.2, none⟩
    | none =>
      let r := fallback center_x center_y
      .ok ⟨r.1, r.2, none⟩

/-- CoordinateCalculator.calculate_coordinates with its actual methods: the
trigonometric projection (total on the reals) and the linear fallback. -/
noncomputable def calculate_coordinates (c : CameraConfig)
    (b : BoundingBox) : Except String SpatialCoordinates :=
  calculate_coordinates_with c
    (fun px py => some (_trigonometric_projection c px py))
    (_linear_mapping c) b

/-! ### Geo-referencing stage (coordinate_processor.py, person_detector.py) -/

/-- CoordinateProcessor._calculate_spatial_coordinates (coordinate_processor.py
lines 218-235): the calculator's result, with any raised error caught and
turned into None. -/
noncomputable def calculate_spatial_coordinates (c : CameraConfig)
    (d : Detection) : Option SpatialCoordinates :=
  match calculate_coordinates c d.bounding_box with
  | .ok sc => some sc
  | .error _ => none

/-- The Detection built by the enrichment branch of
CoordinateProcessor._process_detections (coordinate_processor.py lines
175-181): every field copied from the input except the freshly computed
spatial coordinates; track_id is not passed and so defaults to None. -/
def enriched_detection (d : Detection) (sc : SpatialCoordinates) : Detection :=
  { object_id := d.object_id
    object_type := d.object_type
    confidence := d.confidence
    bounding_box := d.bounding_box
    spatial_coordinates := some sc
    track_id := none }

/-- The per-detection loop of CoordinateProcessor._process_detections
(coordinate_processor.py lines 164-192): each input detection yields exactly
one output entry in order, enriched when its coordinate calculation
succeeds and unchanged when it fails, alongside the successful and failed
calculation counts. -/
noncomputable def process_detections (c : CameraConfig) :
    List Detection → List Detection × Nat × Nat
  | [] => ([], 0, 0)
  | d :: rest =>
    let (out, s, f) := process_detections c rest
    match calculate_spatial_coordinates c d with
    | some sc => (enriched_detection d sc :: out, s + 1, f)
    | none => (d :: out, s, f + 1)

/-- The Detection built by PersonDetector._extract_person_detections
(person_detector.py lines 233-239): object type person, no spatial
coordinates yet, and no track_id (it is not passed and defaults to None). -/
def person_detection (object_id : String) (confidence : ℝ)
    (bbox : BoundingBox) : Detection :=
  { object_id := object_id
    object_type := "person"
    confidence := confidence
    bounding_box := bbox
    spatial_coordinates := none }

/-! ## Theorems -/

/-! ### Helper lemmas for the retry client -/

/-- A status at or above 300 is not a 2xx success. -/
theorem isSuccess_eq_false_of_ge (s : Nat) (h : 300 ≤ s) : isSuccess s = false := by
  simp only [isSuccess, decide_eq_false_iff_not, not_and, not_lt]
  omega

/-- Any non-429 status outside 500-599 classifies as PermanentError. -/
theorem classify_error_permanent (s : Nat) (h429 : s ≠ 429)
    (h5 : s < 500 ∨ 600 ≤ s) : classify_error s = .permanent s := by
  unfold classify_error
  rw [if_neg h429, if_neg (by omega : ¬ (500 ≤ s ∧ s < 600))]

/-- Any 5xx status classifies as RetryableError. -/
theorem classify_error_retryable (s : Nat) (h : 500 ≤ s ∧ s < 600) :
    classify_error s = .retryable s := by
  unfold classify_error
  rw [if_neg (by omega : ¬ s = 429), if_pos h]

/-- Unfolding the retry loop on a transport failure. -/
theorem retryLoop_cons_netFail (mr a : Nat) (rest : List (HttpResp α)) :
    retryLoop mr a (.netFail :: rest) =
      if a < mr then
        ⟨(retryLoop mr (a + 1) rest).outcome,
         (retryLoop mr (a + 1) rest).requests + 1,
         .backoffWait a :: (retryLoop mr (a + 1) rest).delays⟩
      else ⟨.raised .netError, 1, []⟩ := rfl

/-- Unfolding the retry loop on an HTTP response. -/
theorem retryLoop_cons_http (mr a s : Nat) (p : α) (rest : List (HttpResp α)) :
    retryLoop mr a (.http s p :: rest) =
      if isSuccess s then ⟨.success p, 1, []⟩
      else
        match classify_error s with
        | .permanent s2 => ⟨.raised (.permanent s2), 1, []⟩
        | .rateLimit s2 =>
          if a < mr then
            ⟨(retryLoop mr (a + 1) rest).outcome,
             (retryLoop mr (a + 1) rest).requests + 1,
             .rateLimitWait a :: (retryLoop mr (a + 1) rest).delays⟩
          else ⟨.raised (.rateLimit s2), 1, []⟩
        | .retryable s2 =>
          if a < mr then
            ⟨(retryLoop mr (a + 1) rest).outcome,
             (retryLoop mr (a + 1) rest).requests + 1,
             .backoffWait a :: (retryLoop mr (a + 1) rest).delays⟩
          else ⟨.raised (.retryable s2), 1, []⟩
        | .netError => ⟨.raised .netError, 1, []⟩ := rfl

/-- A permanent (non-2xx, non-429, non-5xx) response stops the loop at once. -/
theorem retryLoop_http_permanent (mr a s : Nat) (p : α)
    (rest : List (HttpResp α)) (hns : isSuccess s = false) (h429 : s ≠ 429)
    (h5 : s < 500 ∨ 600 ≤ s) :
    retryLoop mr a (.http s p :: rest) = ⟨.raised (.permanent s), 1, []⟩ := by
  rw [retryLoop_cons_http, hns, classify_error_permanent s h429 h5]
  simp

/-- A 5xx response with retry budget left recurses on the next attempt. -/
theorem retryLoop_http_retryable_step (mr a s : Nat) (p : α)
    (rest : List (HttpResp α)) (hs : 500 ≤ s ∧ s < 600) (h : a < mr) :
    retryLoop mr a (.http s p :: rest) =
      ⟨(retryLoop mr (a + 1) rest).outcome,
       (retryLoop mr (a + 1) rest).requests + 1,
       .backoffWait a :: (retryLoop mr (a + 1) rest).delays⟩ := by
  rw [retryLoop_cons_http, isSuccess_eq_false_of_ge s (by omega),
    classify_error_retryable s hs]
  simp [h]

/-- A 5xx response on the final attempt raises the RetryableError. -/
theorem retryLoop_http_retryable_last (mr a s : Nat) (p : α)
    (rest : List (HttpResp α)) (hs : 500 ≤ s ∧ s < 600) (h : ¬ a < mr) :
    retryLoop mr a (.http s p :: rest) = ⟨.raised (.retryable s), 1, []⟩ := by
  rw [retryLoop_cons_http, isSuccess_eq_false_of_ge s (by omega),
    classify_error_retryable s hs]
  simp [h]

/-- A transport failure with retry budget left recurses on the next attempt. -/
theorem retryLoop_netFail_step (mr a : Nat) (rest : List (HttpResp α))
    (h : a < mr) :
    retryLoop mr a (.netFail :: rest) =
      ⟨(retryLoop mr (a + 1) rest).outcome,
       (retryLoop mr (a + 1) rest).requests + 1,
       .backoffWait a :: (retryLoop mr (a + 1) rest).delays⟩ := by
  rw [retryLoop_cons_netFail]
  simp [h]

/-- A transport failure on the final attempt raises the status-less
RetryableError. -/
theorem retryLoop_netFail_last (mr a : Nat) (rest : List (HttpResp α))
    (h : ¬ a < mr) :
    retryLoop mr a (.netFail :: rest) = ⟨.raised .netError, 1, []⟩ := by
  rw [retryLoop_cons_netFail]
  simp [h]

/-- Running the retry loop from attempt a on a script of exactly
maxRetries + 1 - a retryable responses exhausts the budget and raises the
error classified from the last response, after issuing one request per
script entry. -/
theorem retryLoop_exhausts (mr : Nat) :
    ∀ (resps : List (HttpResp α)) (a : Nat),
      a + resps.length = mr + 1 →
      (∀ r ∈ resps, serverErrorResp r = true) →
      ∀ r0, resps.getLast? = some r0 →
        (retryLoop mr a resps).outcome = .raised (raisedErrOf r0) ∧
        (retryLoop mr a resps).requests = resps.length := by
  intro resps
  induction resps with
  | nil => intro a _ _ r0 hlast; simp at hlast
  | cons x xs ih =>
    intro a hlen hall r0 hlast
    cases xs with
    | nil =>
      have ha : ¬ a < mr := by simp at hlen; omega
      simp only [List.getLast?_singleton, Option.some.injEq] at hlast
      subst hlast
      cases x with
      | netFail =>
        rw [retryLoop_netFail_last mr a [] ha]
        exact ⟨rfl, rfl⟩
      | http s p =>
        have hs : 500 ≤ s ∧ s < 600 := by
          have := hall (.http s p) (by simp)
          simpa [serverErrorResp] using this
        rw [retryLoop_http_retryable_last mr a s p [] hs ha]
        exact ⟨rfl, rfl⟩
    | cons y ys =>
      have halt : a < mr := by simp at hlen; omega
      have hlast2 : (y :: ys).getLast? = some r0 := by
        rwa [List.getLast?_cons_cons] at hlast
      have hrest := ih (a + 1) (by simp at hlen ⊢; omega)
        (fun r hr => hall r (List.mem_cons_of_mem _ hr)) r0 hlast2
      cases x with
      | netFail =>
        rw [retryLoop_netFail_step mr a (y :: ys) halt]
        exact ⟨hrest.1, by simp [hrest.2]⟩
      | http s p =>
        have hs : 500 ≤ s ∧ s < 600 := by
          have := hall (.http s p) (by simp)
          simpa [serverErrorResp] using this
        rw [retryLoop_http_retryable_step mr a s p (y :: ys) hs halt]
        exact ⟨hrest.1, by simp [hrest.2]⟩

/-! ### Claim theorems -/

/-- C1: With max_retries = 3 a response script starting 500, 500, 200
succeeds on the third attempt returning the 200 payload; any first response
with a 4xx status other than 429 raises PermanentError after exactly one
request (zero retries); and a script of nothing but retryable errors that
exhausts the budget surfaces the error classified from the last response
attempted. -/
theorem C1_resilient_client_retry {α : Type} :
    (∀ (p1 p2 p3 : α) (rest : List (HttpResp α)),
       (executeWithRetry 3 (.http 500 p1 :: .http 500 p2 :: .http 200 p3 :: rest)).outcome
         = .success p3 ∧
       (executeWithRetry 3 (.http 500 p1 :: .http 500 p2 :: .http 200 p3 :: rest)).requests
         = 3) ∧
    (∀ (s : Nat), 400 ≤ s → s < 500 → s ≠ 429 →
       ∀ (p : α) (rest : List (HttpResp α)) (mr : Nat),
         (executeWithRetry mr (.http s p :: rest)).outcome = .raised (.permanent s) ∧
         (executeWithRetry mr (.http s p :: rest)).requests = 1) ∧
    (∀ (mr : Nat) (resps : List (HttpResp α)),
       (∀ r ∈ resps, serverErrorResp r = true) →
       resps.length = mr + 1 →
       ∀ r0, resps.getLast? = some r0 →
         (executeWithRetry mr resps).outcome = .raised (raisedErrOf r0) ∧
         (executeWithRetry mr resps).requests = mr + 1) := by
  refine ⟨fun p1 p2 p3 rest => ⟨rfl, rfl⟩, ?_, ?_⟩
  · intro s h4 h5 h429 p rest mr
    unfold executeWithRetry
    rw [retryLoop_http_permanent mr 0 s p rest
      (isSuccess_eq_false_of_ge s (by omega)) h429 (Or.inl h5)]
    exact ⟨rfl, rfl⟩
  · intro mr resps hall hlen r0 hlast
    have := retryLoop_exhausts mr resps 0 (by omega) hall r0 hlast
    exact ⟨this.1, by rw [executeWithRetry, this.2, hlen]⟩

/-- C1 witness: the three parts at concrete scripts over Nat payloads. -/
theorem C1_resilient_client_retry_witness :
    ((executeWithRetry 3 [.http 500 0, .http 500 0, .http 200 7]).outcome
       = .success (7 : Nat) ∧
     (executeWithRetry 3 [.http 500 (0 : Nat), .http 500 0, .http 200 7]).requests = 3) ∧
    ((executeWithRetry 3 [.http 404 (0 : Nat)]).outcome = .raised (.permanent 404) ∧
     (executeWithRetry 3 [.http 404 (0 : Nat)]).requests = 1) ∧
    ((executeWithRetry 2 [.http 500 (0 : Nat), .netFail, .http 503 0]).outcome
       = .raised (.retryable 503) ∧
     (executeWithRetry 2 [.http 500 (0 : Nat), .netFail, .http 503 0]).requests = 3) :=
  ⟨C1_resilient_client_retry.1 0 0 7 [],
   C1_resilient_client_retry.2.1 404 (by decide) (by decide) (by decide) 0 [] 3,
   C1_resilient_client_retry.2.2 2 [.http 500 0, .netFail, .http 503 0]
     (by decide) (by decide) (.http 503 0) (by decide)⟩

/-- C2 (code bug evidence): as wired in edge_agent.initialize_components,
the frame queue has maxsize config.frame_queue_size = 5 while CameraManager
keeps its default max_queue_size = 10, so the eviction loop never fires and
pushing six frames 0..5 keeps the five OLDEST frames and silently drops the
newest, instead of retaining the five most recent; with the manager's cap
actually binding (an unbounded queue, maxsize 0, cap 5) the same push logic
does retain the five most recent frames. -/
theorem C2_frame_queue_drop_oldest :
    frame_queue_push_all 5 10 ([] : List Nat) [0, 1, 2, 3, 4, 5] = [0, 1, 2, 3, 4] ∧
    frame_queue_push_all 5 10 ([] : List Nat) [0, 1, 2, 3, 4, 5] ≠ [1, 2, 3, 4, 5] ∧
    frame_queue_push_all 0 5 ([] : List Nat) [0, 1, 2, 3, 4, 5] = [1, 2, 3, 4, 5] := by
  exact ⟨by decide, by decide, by decide⟩

/-- C7: for both the Detection stage's output queue and the Geo-Referencing
stage's output queue, a push when the queue is at (or beyond) a positive
capacity discards only the new element and leaves the queue exactly as it
was, and a push below capacity appends the element at the back. -/
theorem C7_output_queues_drop_newest {α : Type} :
    (∀ (cap : Nat) (q : List α) (x : α), 0 < cap → cap ≤ q.length →
       detection_queue_push cap q x = q ∧ coordinate_queue_push cap q x = q) ∧
    (∀ (cap : Nat) (q : List α) (x : α), q.length < cap →
       detection_queue_push cap q x = q ++ [x] ∧
       coordinate_queue_push cap q x = q ++ [x]) := by
  constructor
  · intro cap q x h1 h2
    constructor <;> simp [detection_queue_push, coordinate_queue_push, put_nowait, h1, h2]
  · intro cap q x h
    have hn : ¬ (0 < cap ∧ cap ≤ q.length) := by omega
    constructor <;> simp [detection_queue_push, coordinate_queue_push, put_nowait, hn]

/-- C7 witness: a full queue of capacity 2 rejects the new element; the same
queue under capacity 3 appends it. -/
theorem C7_output_queues_drop_newest_witness :
    (detection_queue_push 2 [5, 6] 7 = [5, 6] ∧
     coordinate_queue_push 2 [5, 6] 7 = [5, 6]) ∧
    (detection_queue_push 3 [5, 6] 7 = [5, 6, 7] ∧
     coordinate_queue_push 3 [5, 6] 7 = [5, 6, 7]) :=
  ⟨(C7_output_queues_drop_newest (α := Nat)).1 2 [5, 6] 7 (by decide) (by decide),
   (C7_output_queues_drop_newest (α := Nat)).2 3 [5, 6] 7 (by decide)⟩

/-- The pending list produced by the poll loop is the expiry filter of the
polled commands, in order. -/
theorem process_polled_pending (now : Int) :
    ∀ cmds : List Command,
      (process_polled_commands now cmds).1
        = cmds.filter (fun c => ! is_expired now c) := by
  intro cmds
  induction cmds with
  | nil => rfl
  | cons c rest ih =>
    by_cases h : is_expired now c = true
    · simp [process_polled_commands, h, ih]
    · simp at h
      simp [process_polled_commands, h, ih]

/-- Every expired polled command gets its index onto the acknowledgment
list. -/
theorem process_polled_acks (now : Int) :
    ∀ (cmds : List Command) (c : Command), c ∈ cmds → is_expired now c = true →
      c.index ∈ (process_polled_commands now cmds).2 := by
  intro cmds
  induction cmds with
  | nil => intro c hc; simp at hc
  | cons x rest ih =>
    intro c hc hexp
    rcases List.mem_cons.mp hc with rfl | hmem
    · simp [process_polled_commands, hexp]
    · have := ih c hmem hexp
      by_cases hx : is_expired now x = true
      · simp [process_polled_commands, hx, this]
      · simp at hx
        simp [process_polled_commands, hx, this]

/-- C5: a polled command whose expiry timestamp is in the past is
acknowledged immediately (its index joins the acknowledgment list), is
excluded from the returned pending-command list — so the command loop,
which executes exactly the returned list, never invokes execution logic on
it — and a command with no expires_at is never expired. -/
theorem C5_expired_commands (now : Int) (cmds : List Command) :
    (process_polled_commands now cmds).1
      = cmds.filter (fun c => ! is_expired now c) ∧
    (∀ c ∈ cmds, is_expired now c = true →
       c.index ∈ (process_polled_commands now cmds).2 ∧
       c ∉ (process_polled_commands now cmds).1) ∧
    (∀ c ∈ (process_polled_commands now cmds).1, is_expired now c = false) ∧
    (∀ (st : RegistryState) (mr : Nat), st.registered = true →
       (poll_commands st now mr [.http 200 cmds]).2
         = cmds.filter (fun c => ! is_expired now c)) ∧
    (∀ c : Command, c.expires_at = none → is_expired now c = false) := by
  refine ⟨process_polled_pending now cmds, ?_, ?_, ?_, ?_⟩
  · intro c hc hexp
    refine ⟨process_polled_acks now cmds c hc hexp, ?_⟩
    rw [process_polled_pending now cmds]
    intro hmem
    have := (List.mem_filter.mp hmem).2
    simp [hexp] at this
  · intro c hc
    rw [process_polled_pending now cmds] at hc
    have := (List.mem_filter.mp hc).2
    simpa using this
  · intro st mr hreg
    unfold poll_commands
    rw [hreg]
    simpa using process_polled_pending now cmds
  · intro c hnone
    simp [is_expired, hnone]

/-- C5 witness: at time 10, a command expired at 5 is acknowledged and
filtered out while a command with no expiry stays pending. -/
theorem C5_expired_commands_witness :
    (process_polled_commands 10
        [⟨1, "ping", [], 0, some 5⟩, ⟨2, "ping", [], 0, none⟩]).1
      = [⟨2, "ping", [], 0, none⟩] ∧
    (1 : Int) ∈ (process_polled_commands 10
        [⟨1, "ping", [], 0, some 5⟩, ⟨2, "ping", [], 0, none⟩]).2 ∧
    is_expired 10 ⟨2, "ping", [], 0, none⟩ = false := by
  have h := C5_expired_commands 10
    [⟨1, "ping", [], 0, some 5⟩, ⟨2, "ping", [], 0, none⟩]
  refine ⟨?_, ?_, ?_⟩
  · rw [h.1]; decide
  · exact (h.2.1 ⟨1, "ping", [], 0, some 5⟩ (by decide) (by decide)).1
  · exact h.2.2.2.2 ⟨2, "ping", [], 0, none⟩ rfl

/-- C6: register_asset treats a raised 409 exactly like a 2xx success (both
set the Registered state and return True), and on every response script it
returns normally — either success with the state Registered, or False with
the state unchanged — so registering twice in a row never raises. -/
theorem C6_registration_idempotent {α : Type} :
    (∀ (st : RegistryState) (mr : Nat) (s : Nat) (p : α)
       (rest : List (HttpResp α)), isSuccess s = true →
       register_asset st mr (.http s p :: rest) = (⟨true⟩, true)) ∧
    (∀ (st : RegistryState) (mr : Nat) (p : α) (rest : List (HttpResp α)),
       register_asset st mr (.http 409 p :: rest) = (⟨true⟩, true)) ∧
    (∀ (st : RegistryState) (mr : Nat) (resps : List (HttpResp α)),
       register_asset st mr resps = (⟨true⟩, true) ∨
       register_asset st mr resps = (st, false)) := by
  refine ⟨?_, ?_, ?_⟩
  · intro st mr s p rest hs
    unfold register_asset executeWithRetry
    rw [retryLoop_cons_http, hs]
    simp
  · intro st mr p rest
    unfold register_asset executeWithRetry
    rw [retryLoop_http_permanent mr 0 409 p rest (by decide) (by decide)
      (by decide)]
    rfl
  · intro st mr resps
    unfold register_asset
    rcases houtcome : (executeWithRetry mr resps).outcome with p | e | _
    · left; rfl
    · by_cases h409 : errStatus e = some 409
      · left; simp [h409]
      · right; simp [h409]
    · right; rfl

/-- C6 witness: a 201 response and a 409 response both register and return
True from the unregistered state, and a second registration directly after
the first returns normally as well. -/
theorem C6_registration_idempotent_witness :
    register_asset ⟨false⟩ 3 [.http 201 (0 : Nat)] = (⟨true⟩, true) ∧
    register_asset ⟨false⟩ 3 [.http 409 (0 : Nat)] = (⟨true⟩, true) ∧
    (register_asset (register_asset ⟨false⟩ 3 [.http 409 (0 : Nat)]).1 3
        [.http 409 (0 : Nat)] = (⟨true⟩, true) ∨
     register_asset (register_asset ⟨false⟩ 3 [.http 409 (0 : Nat)]).1 3
        [.http 409 (0 : Nat)]
       = ((register_asset ⟨false⟩ 3 [.http 409 (0 : Nat)]).1, false)) :=
  ⟨C6_registration_idempotent.1 ⟨false⟩ 3 201 0 [] (by decide),
   C6_registration_idempotent.2.1 ⟨false⟩ 3 0 [],
   C6_registration_idempotent.2.2 _ 3 [.http 409 0]⟩

/-- C9 counterexample: poll_commands on a Registered state that receives a
404 APIError clears the _registered flag, so an operation other than the
claimed one-way registration transition returns the device to Unregistered. -/
theorem C9_poll_unregisters_on_404 :
    (poll_commands ⟨true⟩ 0 0 [.http 404 ([] : List Command)]).1 = ⟨false⟩ ∧
    (⟨false⟩ : RegistryState) ≠ ⟨true⟩ :=
  ⟨rfl, by decide⟩

/-- C9 (amended): the only transition back to Unregistered is poll_commands
observing a raised APIError with status 404; register_asset never clears a
Registered state, and acknowledge_command and execute_command never change
the state at all. -/
theorem C9_one_way_registration {α : Type} :
    (∀ (st : RegistryState) (mr : Nat) (resps : List (HttpResp α)),
       st.registered = true →
       ((register_asset st mr resps).1).registered = true) ∧
    (∀ (st : RegistryState) (mr : Nat) (resps : List (HttpResp α)),
       (acknowledge_command st mr resps).1 = st) ∧
    (∀ (st : RegistryState) (c : Command) (mr : Nat)
       (resps : List (HttpResp α)),
       (execute_command st c mr resps).1 = st) ∧
    (∀ (st : RegistryState) (now : Int) (mr : Nat)
       (resps : List (HttpResp (List Command))),
       ((poll_commands st now mr resps).1).registered = false →
       st.registered = false ∨
       ∃ e, (executeWithRetry mr resps).outcome = .raised e ∧
            errStatus e = some 404) := by
  have hack : ∀ (st : RegistryState) (mr : Nat) (resps : List (HttpResp α)),
      (acknowledge_command st mr resps).1 = st := by
    intro st mr resps
    unfold acknowledge_command
    by_cases hreg : st.registered = false
    · simp [hreg]
    · rcases houtcome : (executeWithRetry mr resps).outcome with p | e | _ <;>
        simp [hreg, houtcome]
      by_cases h404 : errStatus e = some 404 <;> simp [h404]
  refine ⟨?_, hack, ?_, ?_⟩
  · intro st mr resps hreg
    unfold register_asset
    rcases houtcome : (executeWithRetry mr resps).outcome with p | e | _
    · rfl
    · by_cases h409 : errStatus e = some 409
      · simp [h409]
      · simpa [h409] using hreg
    · exact hreg
  · intro st c mr resps
    unfold execute_command
    by_cases hk : knownCommandType c.command_type = true
    · simp [hk, hack]
    · simp at hk
      simp [hk]
  · intro st now mr resps hfalse
    unfold poll_commands at hfalse
    by_cases hreg : st.registered = false
    · exact Or.inl hreg
    · rw [if_neg (by simpa using hreg)] at hfalse
      rcases houtcome : (executeWithRetry mr resps).outcome with p | e | _
      · simp [houtcome] at hfalse
        exact absurd hfalse hreg
      · by_cases h404 : errStatus e = some 404
        · exact Or.inr ⟨e, rfl, h404⟩
        · simp [houtcome, h404] at hfalse
          exact absurd hfalse hreg
      · simp [houtcome] at hfalse
        exact absurd hfalse hreg

/-- C9 amended witness: the clauses applied at concrete states and scripts. -/
theorem C9_one_way_registration_witness :
    ((register_asset ⟨true⟩ 0 ([] : List (HttpResp Nat))).1).registered = true ∧
    (acknowledge_command ⟨true⟩ 0 ([] : List (HttpResp Nat))).1 = ⟨true⟩ ∧
    (execute_command ⟨true⟩ ⟨1, "ping", [], 0, none⟩ 0
        ([] : List (HttpResp Nat))).1 = ⟨true⟩ ∧
    ((⟨false⟩ : RegistryState).registered = false ∨
     ∃ e, (executeWithRetry 0 ([] : List (HttpResp (List Command)))).outcome
        = .raised e ∧ errStatus e = some 404) :=
  ⟨(C9_one_way_registration (α := Nat)).1 ⟨true⟩ 0 [] rfl,
   (C9_one_way_registration (α := Nat)).2.1 ⟨true⟩ 0 [],
   (C9_one_way_registration (α := Nat)).2.2.1 ⟨true⟩ ⟨1, "ping", [], 0, none⟩ 0 [],
   (C9_one_way_registration (α := Nat)).2.2.2 ⟨false⟩ 0 0 [] rfl⟩

/-- C8 counterexample: after a 429 the client sleeps the fixed 5 seconds
plus jitter regardless of the configuration, so with backoff_base = 10 and
zero jitter the wait before the second attempt is 5, strictly below the
configured base — the claim does not hold for every configuration. -/
theorem C8_rate_limit_wait_below_base :
    (executeWithRetry 3 [.http 429 (0 : Nat), .http 200 0]).delays
      = [.rateLimitWait 0] ∧
    delaySeconds ⟨3, 10⟩ (fun _ => 0) (.rateLimitWait 0) = 5 ∧
    (5 : ℝ) < (⟨3, 10⟩ : EdgeConfig).backoff_base := by
  refine ⟨rfl, ?_, by norm_num⟩
  simp [delaySeconds]

/-- C8 (amended): a 429 followed by a 200 issues exactly two requests with
one wait between them, recorded as the attempt-0 rate-limit wait; that wait
is the fixed 5-second base plus the drawn non-negative jitter — at least 5
seconds, and hence at least the configured backoff base whenever that base
is at most 5 (as with the default 2.0) — rather than an exponential
backoff. -/
theorem C8_rate_limit_wait {α : Type} :
    (∀ (mr : Nat) (p1 p2 : α), 1 ≤ mr →
       executeWithRetry mr [.http 429 p1, .http 200 p2]
         = ⟨.success p2, 2, [.rateLimitWait 0]⟩) ∧
    (∀ (cfg : EdgeConfig) (jit : Nat → ℝ) (a : Nat), 0 ≤ jit a →
       delaySeconds cfg jit (.rateLimitWait a) = 5 + jit a ∧
       5 ≤ delaySeconds cfg jit (.rateLimitWait a) ∧
       (cfg.backoff_base ≤ 5 →
         cfg.backoff_base ≤ delaySeconds cfg jit (.rateLimitWait a))) := by
  constructor
  · intro mr p1 p2 hmr
    unfold executeWithRetry
    rw [retryLoop_cons_http]
    have h429 : classify_error 429 = .rateLimit 429 := rfl
    rw [show isSuccess 429 = false from rfl, h429]
    simp only [Bool.false_eq_true, if_false]
    rw [if_pos (by omega : 0 < mr)]
    rfl
  · intro cfg jit a hj
    refine ⟨rfl, ?_, ?_⟩
    · simp only [delaySeconds]
      linarith
    · intro hb
      simp only [delaySeconds]
      linarith

/-- C8 amended witness: the concrete run and the default configuration's
base of 2.0. -/
theorem C8_rate_limit_wait_witness :
    executeWithRetry 3 [.http 429 (1 : Nat), .http 200 2]
      = ⟨.success 2, 2, [.rateLimitWait 0]⟩ ∧
    (5 : ℝ) ≤ delaySeconds ⟨3, 2⟩ (fun _ => 0) (.rateLimitWait 0) ∧
    ((⟨3, 2⟩ : EdgeConfig).backoff_base ≤ 5 →
      (⟨3, 2⟩ : EdgeConfig).backoff_base
        ≤ delaySeconds ⟨3, 2⟩ (fun _ => 0) (.rateLimitWait 0)) :=
  ⟨(C8_rate_limit_wait (α := Nat)).1 3 1 2 (by decide),
   ((C8_rate_limit_wait (α := Nat)).2 ⟨3, 2⟩ (fun _ => 0) 0 le_rfl).2.1,
   ((C8_rate_limit_wait (α := Nat)).2 ⟨3, 2⟩ (fun _ => 0) 0 le_rfl).2.2⟩

/-- C3: a bounding box with non-positive width or height, negative origin,
or extent past the frame bounds makes calculate_coordinates raise the
invalid-box ValueError, and the result does not depend on the projection or
fallback methods — neither is invoked on the box. -/
theorem C3_invalid_box_rejected (c : CameraConfig) (b : BoundingBox)
    (h : b.width ≤ 0 ∨ b.height ≤ 0 ∨ b.x < 0 ∨ b.y < 0 ∨
         c.width < b.x + b.width ∨ c.height < b.y + b.height) :
    (∀ proj fallback,
       calculate_coordinates_with c proj fallback b = .error "Invalid bounding box") ∧
    calculate_coordinates c b = .error "Invalid bounding box" := by
  have hv : _validate_bounding_box c b = false := by
    unfold _validate_bounding_box
    split_ifs with h1 h2 h3 h4
    · rfl
    · rfl
    · rfl
    · rfl
    · exfalso
      push_neg at h1 h2
      rcases h with h | h | h | h | h | h <;> omega
  constructor
  · intro proj fallback
    simp [calculate_coordinates_with, hv]
  · simp [calculate_coordinates, calculate_coordinates_with, hv]

/-- C3 witness: a box with negative origin in a 640x480 frame is rejected. -/
theorem C3_invalid_box_rejected_witness :
    calculate_coordinates ⟨640, 480, 60, 45⟩ ⟨-1, 0, 10, 10⟩
      = .error "Invalid bounding box" :=
  (C3_invalid_box_rejected ⟨640, 480, 60, 45⟩ ⟨-1, 0, 10, 10⟩
    (Or.inr (Or.inr (Or.inl (by decide))))).2

/-- The trigonometric projection of the exact frame center is (0, 0): the
normalized device coordinates vanish, the ray is (0, 0, 1), and
atan2 0 1 = arctan 0 = 0 on both axes. -/
theorem trig_center (c : CameraConfig) (px py : ℝ)
    (hx : 2 * px = (c.width : ℝ)) (hy : 2 * py = (c.height : ℝ)) :
    _trigonometric_projection c px py = (0, 0) := by
  unfold _trigonometric_projection
  have h1 : 2 * px - (c.width : ℝ) = 0 := by rw [hx]; ring
  have h2 : (c.height : ℝ) - 2 * py = 0 := by rw [← hy]; ring
  simp only [h1, h2, zero_div, zero_mul]
  have hz : (0 : ℝ) ^ 2 + 1 ^ 2 = 1 := by norm_num
  rw [hz, Real.sqrt_one]
  have ha : atan2 0 1 = 0 := by
    unfold atan2
    rw [if_pos one_pos]
    simp
  rw [ha]
  simp [degrees]

/-- C4: the implemented trigonometric projection coincides pointwise with
the spec's algorithm (focal length from FOV, center to NDC, ray with unit
z, bearing atan2(rayX, 1), elevation atan2(rayY, sqrt(rayX^2 + 1)), in
degrees), and a valid box centered at the exact frame center yields bearing
0 and elevation 0. -/
theorem C4_trigonometric_projection :
    (∀ (c : CameraConfig) (px py : ℝ),
       _trigonometric_projection c px py = spec_trigonometric_projection c px py) ∧
    (∀ (c : CameraConfig) (b : BoundingBox),
       _validate_bounding_box c b = true →
       2 * ((b.x : ℝ) + (b.width : ℝ) / 2) = (c.width : ℝ) →
       2 * ((b.y : ℝ) + (b.height : ℝ) / 2) = (c.height : ℝ) →
       calculate_coordinates c b = .ok ⟨0, 0, none⟩) := by
  constructor
  · intro c px py
    simp only [_trigonometric_projection, spec_trigonometric_projection,
      focal_length_x, focal_length_y, one_pow, mul_div_assoc, div_div]
  · intro c b hv hx hy
    unfold calculate_coordinates calculate_coordinates_with
    rw [hv]
    simp only [Bool.true_eq_false, if_false]
    rw [trig_center c ((b.x : ℝ) + (b.width : ℝ) / 2)
      ((b.y : ℝ) + (b.height : ℝ) / 2) hx hy]

/-- C4 witness: in a 640x480 frame with 60-degree by 45-degree FOV, the two
projections agree at pixel (320, 240), and the valid box (280, 200, 80, 80)
centered at (320, 240) projects to bearing 0 and elevation 0. -/
theorem C4_trigonometric_projection_witness :
    _trigonometric_projection ⟨640, 480, 60, 45⟩ 320 240
      = spec_trigonometric_projection ⟨640, 480, 60, 45⟩ 320 240 ∧
    calculate_coordinates ⟨640, 480, 60, 45⟩ ⟨280, 200, 80, 80⟩
      = .ok ⟨0, 0, none⟩ :=
  ⟨C4_trigonometric_projection.1 ⟨640, 480, 60, 45⟩ 320 240,
   C4_trigonometric_projection.2 ⟨640, 480, 60, 45⟩ ⟨280, 200, 80, 80⟩
     (by decide) (by norm_num) (by norm_num)⟩

/-- Unfolding the per-detection loop on one detection. -/
theorem process_detections_cons (c : CameraConfig) (d : Detection)
    (rest : List Detection) :
    process_detections c (d :: rest) =
      match calculate_spatial_coordinates c d with
      | some sc =>
        (enriched_detection d sc :: (process_detections c rest).1,
         (process_detections c rest).2.1 + 1, (process_detections c rest).2.2)
      | none =>
        (d :: (process_detections c rest).1,
         (process_detections c rest).2.1, (process_detections c rest).2.2 + 1) := rfl

/-- On a batch whose detections all carry no track id (as the Detection
stage produces them), the output list is the input list mapped through
enrich-on-success, keep-on-failure. -/
theorem process_detections_map (c : CameraConfig) :
    ∀ dets : List Detection, (∀ d ∈ dets, d.track_id = none) →
      (process_detections c dets).1 = dets.map (fun d =>
        match calculate_spatial_coordinates c d with
        | some sc => { d with spatial_coordinates := some sc }
        | none => d) := by
  intro dets
  induction dets with
  | nil => intro _; rfl
  | cons d rest ih =>
    intro h
    have hd : d.track_id = none := h d (List.mem_cons_self d rest)
    have hrest := ih (fun x hx => h x (List.mem_cons_of_mem d hx))
    rw [process_detections_cons]
    cases hcalc : calculate_spatial_coordinates c d with
    | some sc =>
      simp only [List.map_cons, hcalc, hrest]
      congr 1
      cases d
      simp_all [enriched_detection]
    | none =>
      simp only [List.map_cons, hcalc, hrest]

/-- The success and failure counters of the per-detection loop sum to the
number of input detections. -/
theorem process_detections_counts (c : CameraConfig) :
    ∀ dets : List Detection,
      (process_detections c dets).2.1 + (process_detections c dets).2.2
        = dets.length := by
  intro dets
  induction dets with
  | nil => rfl
  | cons d rest ih =>
    rw [process_detections_cons]
    cases hcalc : calculate_spatial_coordinates c d with
    | some sc => dsimp only [List.length_cons]; omega
    | none => dsimp only [List.length_cons]; omega

/-- C10: the Geo-Referencing stage never drops a detection. For any batch
of detections as produced by the Detection stage (track id absent), the
output has exactly one entry per input in the same order; an entry whose
coordinate calculation succeeds is the input enriched with the computed
spatial coordinates and otherwise identical, an entry whose calculation
fails is the input unchanged, and the successful plus failed counts sum to
the number of inputs. The last clause records that the Detection stage
indeed builds every detection with no track id. -/
theorem C10_geo_stage_batch (c : CameraConfig) (dets : List Detection)
    (h : ∀ d ∈ dets, d.track_id = none) :
    (process_detections c dets).1.length = dets.length ∧
    (process_detections c dets).2.1 + (process_detections c dets).2.2
      = dets.length ∧
    (process_detections c dets).1 = dets.map (fun d =>
      match calculate_spatial_coordinates c d with
      | some sc => { d with spatial_coordinates := some sc }
      | none => d) ∧
    (∀ (oid : String) (conf : ℝ) (bb : BoundingBox),
      (person_detection oid conf bb).track_id = none) := by
  refine ⟨?_, process_detections_counts c dets, process_detections_map c dets h,
    fun oid conf bb => rfl⟩
  rw [process_detections_map c dets h, List.length_map]

/-- C10 witness: a singleton batch from the Detection stage whose box is
invalid keeps its one detection and reports one failed calculation. -/
theorem C10_geo_stage_batch_witness :
    (process_detections ⟨640, 480, 60, 45⟩
        [person_detection "p0" 1 ⟨-5, 0, 10, 10⟩]).1.length = 1 ∧
    (process_detections ⟨640, 480, 60, 45⟩
        [person_detection "p0" 1 ⟨-5, 0, 10, 10⟩]).2.1 +
      (process_detections ⟨640, 480, 60, 45⟩
        [person_detection "p0" 1 ⟨-5, 0, 10, 10⟩]).2.2 = 1 := by
  have h := C10_geo_stage_batch ⟨640, 480, 60, 45⟩
    [person_detection "p0" 1 ⟨-5, 0, 10, 10⟩]
    (by intro d hd; rw [List.mem_singleton] at hd; subst hd; rfl)
  exact ⟨h.1, h.2.1⟩

end EdgeOS
